import Mathlib

/-!
Shallow embedding of the taurisky credential-store and session-client core
(`src-tauri/src`: `types.rs`, `auth/mod.rs`, `storage/crypto.rs`,
`storage/persistence.rs`, `storage/mod.rs`, `commands.rs`).

Modelling conventions:
* bytes are `Nat` (a `Vec<u8>` becomes `List Nat`); Rust `String`/`&str`
  become Lean `String`;
* fallible Rust functions returning `Result<T, E>` become `Except E T`;
* randomness (AEAD nonces, fresh salts) is made explicit: the random value
  drawn by the code is an extra argument of the embedded function;
* the external crates (`aes_gcm`, `base64`, `argon2`, `serde_json`) are
  modelled as abstract primitive packages; where a claim depends on a
  documented guarantee of such a crate (AEAD round-trip, AEAD rejection
  under a wrong key, base64 round-trip, Argon2 default 32-byte output) the
  guarantee is carried as a law of the package, and concrete executable
  packages satisfying the laws are constructed for witnesses;
* filesystem effects are modelled by explicit state passing: the contents
  of the two files owned by `PersistentStorage` form a `Disk` record, and
  the outcome of each OS call (`fs::write`, `fs::remove_file`) is an
  explicit argument; the sequence of filesystem calls issued by an
  operation is additionally returned as a trace of `FsOp`s.
-/

/-! ### Error taxonomy (`types.rs`) -/

/-- `AuthErrorType` from `types.rs`. -/
inductive AuthErrorType where
  | InvalidCredentials
  | NetworkError
  | ServerError
  | TokenExpired
  | InvalidServerUrl
  | AccountNotFound
  | StorageError
  | Unknown
deriving DecidableEq, Repr

/-- `AuthError` from `types.rs` (payloads are the formatted message strings). -/
inductive AuthError where
  | InvalidCredentials (msg : String)
  | NetworkError (msg : String)
  | ServerError (msg : String)
  | TokenExpired
  | InvalidServerUrl (msg : String)
  | AccountNotFound (msg : String)
  | StorageError (msg : String)
  | Unknown (msg : String)
deriving DecidableEq, Repr

namespace AuthError

/-- `AuthError::error_type` from `types.rs`. -/
def error_type : AuthError → AuthErrorType
  | .InvalidCredentials _ => .InvalidCredentials
  | .NetworkError _ => .NetworkError
  | .ServerError _ => .ServerError
  | .TokenExpired => .TokenExpired
  | .InvalidServerUrl _ => .InvalidServerUrl
  | .AccountNotFound _ => .AccountNotFound
  | .StorageError _ => .StorageError
  | .Unknown _ => .Unknown

/-- The `Display` rendering generated by the `#[error("...")]` attributes
on `AuthError` in `types.rs`. -/
def display : AuthError → String
  | .InvalidCredentials m => "Invalid credentials: " ++ m
  | .NetworkError m => "Network error: " ++ m
  | .ServerError m => "Server error: " ++ m
  | .TokenExpired => "Token expired"
  | .InvalidServerUrl m => "Invalid server URL: " ++ m
  | .AccountNotFound m => "Account not found: " ++ m
  | .StorageError m => "Storage error: " ++ m
  | .Unknown m => "Unknown error: " ++ m

/-- `matches!(e, AuthError::NetworkError(_))` from `auth/mod.rs` line 191. -/
def isNetworkError : AuthError → Bool
  | .NetworkError _ => true
  | _ => false

theorem isNetworkError_eq_false_of_type (e : AuthError)
    (h : e.error_type ≠ AuthErrorType.NetworkError) : e.isNetworkError = false := by
  cases e <;> simp [isNetworkError, error_type] at h ⊢

end AuthError

/-! ### Domain records (`types.rs`) -/

/-- `Account` from `types.rs`. -/
structure Account where
  id : String
  did : String
  handle : String
  email : Option String
  display_name : Option String
  avatar : Option String
  server_url : String
  created_at : String
  last_used_at : String
  is_active : Bool
deriving DecidableEq, Repr

/-- `AuthToken` from `types.rs`. -/
structure AuthToken where
  account_id : String
  access_jwt : String
  refresh_jwt : String
  issued_at : String
  access_expires_at : String
  refresh_expires_at : String
  session_string : Option String
deriving DecidableEq, Repr

/-- `SessionResponse` from `types.rs`. -/
structure SessionResponse where
  access_jwt : String
  refresh_jwt : String
  did : String
  handle : String
  email : Option String
  display_name : Option String
  avatar : Option String
deriving DecidableEq, Repr

deriving instance DecidableEq for Except

/-! ### `str::starts_with` -/

/-- Character-list core of Rust `str::starts_with`. -/
def starts_with_go : List Char → List Char → Bool
  | [], _ => true
  | _ :: _, [] => false
  | c :: cs, d :: ds => c == d && starts_with_go cs ds

/-- Rust `str::starts_with(pre)`: `pre` is a prefix of `s`. -/
def starts_with (s pre : String) : Bool :=
  starts_with_go pre.data s.data

theorem starts_with_go_append (l t : List Char) : starts_with_go l (l ++ t) = true := by
  induction l with
  | nil => rfl
  | cons c cs ih => simp [starts_with_go, ih]

theorem starts_with_append (pre s : String) : starts_with (pre ++ s) pre = true := by
  show starts_with_go pre.data (pre.data ++ s.data) = true
  exact starts_with_go_append pre.data s.data

theorem starts_with_go_iff (l d : List Char) :
    starts_with_go l d = true ↔ ∃ t, d = l ++ t := by
  induction l generalizing d with
  | nil => simp [starts_with_go]
  | cons c cs ih =>
    cases d with
    | nil => simp [starts_with_go]
    | cons e es =>
      simp only [starts_with_go, Bool.and_eq_true, beq_iff_eq, ih]
      constructor
      · rintro ⟨rfl, t, rfl⟩
        exact ⟨t, rfl⟩
      · rintro ⟨t, het⟩
        injection het with h1 h2
        exact ⟨h1.symm, t, h2⟩

/-- A string beginning with `"http://"` does not begin with `"https://"`:
the fifth character is `':'` in the one and `'s'` in the other. -/
theorem not_https_of_http (s : String) (h : starts_with s "http://" = true) :
    starts_with s "https://" = false := by
  unfold starts_with at h ⊢
  rw [starts_with_go_iff] at h
  obtain ⟨t, ht⟩ := h
  rw [ht]
  rfl

/-! ### `ATProtocolClient::normalize_server_url` (`auth/mod.rs` lines 37-55) -/

/-- `ATProtocolClient::normalize_server_url` from `auth/mod.rs`. -/
def normalize_server_url (server_url : Option String) : Except AuthError String :=
  let url := server_url.getD "https://bsky.social"
  let url :=
    if !(starts_with url "http://") && !(starts_with url "https://") then
      "https://" ++ url
    else
      url
  if !(starts_with url "https://") then
    .error (.InvalidServerUrl "Server URL must use HTTPS protocol")
  else
    .ok url

example : normalize_server_url none = .ok "https://bsky.social" := by decide
example : normalize_server_url (some "bsky.social") = .ok "https://bsky.social" := by decide
example : normalize_server_url (some "http://x.test") =
    .error (.InvalidServerUrl "Server URL must use HTTPS protocol") := by decide

/-- C9: an input without a scheme gets `https://` prepended; normalization
succeeds only onto URLs starting with `https://`; an explicit `http://`
input is rejected with `InvalidServerUrl`; an absent input normalizes to
`https://bsky.social`. -/
theorem C9_normalize_server_url :
    normalize_server_url none = .ok "https://bsky.social" ∧
    (∀ s : String, starts_with s "http://" = false → starts_with s "https://" = false →
      normalize_server_url (some s) = .ok ("https://" ++ s)) ∧
    (∀ s : String, starts_with s "http://" = true →
      normalize_server_url (some s) =
        .error (.InvalidServerUrl "Server URL must use HTTPS protocol")) ∧
    (∀ (o : Option String) (u : String), normalize_server_url o = .ok u →
      starts_with u "https://" = true) := by
  refine ⟨by decide, ?_, ?_, ?_⟩
  · intro s h1 h2
    simp [normalize_server_url, h1, h2, starts_with_append]
  · intro s h1
    have h2 : starts_with s "https://" = false := not_https_of_http s h1
    simp [normalize_server_url, h1, h2]
  · intro o u h
    rcases o with _ | s
    · have he : normalize_server_url none = .ok "https://bsky.social" := by decide
      rw [he] at h
      injection h with h'
      rw [← h']
      decide
    · by_cases h1 : starts_with s "http://" = true
      · have h2 := not_https_of_http s h1
        simp [normalize_server_url, h1, h2] at h
      · simp at h1
        by_cases h2 : starts_with s "https://" = true
        · simp [normalize_server_url, h1, h2] at h
          rw [← h]; exact h2
        · simp at h2
          simp [normalize_server_url, h1, h2, starts_with_append] at h
          rw [← h]; exact starts_with_append "https://" s

/-- Witness for C9 at concrete inputs. -/
theorem C9_normalize_server_url_witness :
    normalize_server_url (some "pds.example.net") = .ok "https://pds.example.net" ∧
    normalize_server_url (some "http://pds.example.net") =
      .error (.InvalidServerUrl "Server URL must use HTTPS protocol") :=
  ⟨C9_normalize_server_url.2.1 "pds.example.net" (by decide) (by decide),
   C9_normalize_server_url.2.2.1 "http://pds.example.net" (by decide)⟩

/-! ### `ATProtocolClient::with_retry` (`auth/mod.rs` lines 173-201)

The operation is effectful in Rust (each invocation may give a different
outcome), so it is embedded as `op : Nat → Except AuthError α`, where
`op i` is the outcome of its `i`-th invocation (0-based).  The embedding
returns the final result together with the number of invocations performed
and the list of backoff delays slept, in seconds
(`Duration::from_secs(2u64.pow(attempt - 1))`).

`remaining` is a structural-termination fuel maintained equal to
`max_retries - attempt`; since the loop returns as soon as
`attempt >= max_retries`, the fuel-exhausted branch is unreachable from
`with_retry`'s initial arguments, and it returns the same error the Rust
loop would have returned at that point. -/

/-- Loop body of `ATProtocolClient::with_retry` (with `max_retries = 3`). -/
def retry_go (op : Nat → Except AuthError α) :
    Nat → Nat → Nat → List Nat → Except AuthError α × Nat × List Nat
  | remaining, attempt, calls, delays =>
    match op calls with
    | .ok result => (.ok result, calls + 1, delays)
    | .error e =>
      let attempt' := attempt + 1
      if attempt' ≥ 3 then
        (.error e, calls + 1, delays)
      else if e.isNetworkError = false then
        -- only retry on network errors
        (.error e, calls + 1, delays)
      else
        match remaining with
        | 0 => (.error e, calls + 1, delays)
        | r + 1 =>
          -- exponential backoff: 1s, 2s, 4s
          retry_go op r attempt' (calls + 1) (delays ++ [2 ^ (attempt' - 1)])

/-- `ATProtocolClient::with_retry` from `auth/mod.rs`: `max_retries = 3`,
`attempt = 0` initially. -/
def with_retry (op : Nat → Except AuthError α) : Except AuthError α × Nat × List Nat :=
  retry_go op 3 0 0 []

example :
    with_retry (fun _ => (.error (.NetworkError "timeout") : Except AuthError Nat)) =
      (.error (.NetworkError "timeout"), 3, [1, 2]) := by decide

example :
    with_retry (fun i => if i = 0 then .error (.NetworkError "t") else (.ok 7 : Except AuthError Nat)) =
      (.ok 7, 2, [1]) := by decide

/-- C3: an operation failing with `NetworkError` on every invocation is
invoked exactly 3 times, with backoff delays of 1s then 2s between
consecutive attempts, and the `NetworkError` of the final attempt is
returned. -/
theorem C3_with_retry_network_failure (α : Type) (op : Nat → Except AuthError α)
    (h : ∀ i, ∃ m, op i = .error (.NetworkError m)) :
    (with_retry op).2.1 = 3 ∧ (with_retry op).2.2 = [1, 2] ∧ (with_retry op).1 = op 2 := by
  obtain ⟨m0, h0⟩ := h 0
  obtain ⟨m1, h1⟩ := h 1
  obtain ⟨m2, h2⟩ := h 2
  simp [with_retry, retry_go, h0, h1, h2, AuthError.isNetworkError]

/-- Witness for C3: the always-network-failing operation. -/
theorem C3_with_retry_network_failure_witness :
    (with_retry (fun _ => (.error (.NetworkError "Request timeout") : Except AuthError Nat))).2.1 = 3 ∧
    (with_retry (fun _ => (.error (.NetworkError "Request timeout") : Except AuthError Nat))).2.2 = [1, 2] ∧
    (with_retry (fun _ => (.error (.NetworkError "Request timeout") : Except AuthError Nat))).1 =
      (fun _ => (.error (.NetworkError "Request timeout") : Except AuthError Nat)) 2 :=
  C3_with_retry_network_failure Nat _ (fun _ => ⟨"Request timeout", rfl⟩)

/-- C4: an operation whose first invocation fails with any error that is
not a `NetworkError` is invoked exactly once; that error is returned with
no backoff delay. -/
theorem C4_with_retry_no_retry_on_non_network (α : Type) (op : Nat → Except AuthError α)
    (e : AuthError) (h0 : op 0 = .error e)
    (hn : e.error_type ≠ AuthErrorType.NetworkError) :
    with_retry op = (.error e, 1, []) := by
  have he : e.isNetworkError = false := AuthError.isNetworkError_eq_false_of_type e hn
  simp [with_retry, retry_go, h0, he]

/-- Witness for C4: an operation failing with `InvalidCredentials` is
attempted exactly once. -/
theorem C4_with_retry_no_retry_on_non_network_witness :
    with_retry (fun _ => (.error (.InvalidCredentials "Invalid handle or password") :
        Except AuthError Nat)) =
      (.error (.InvalidCredentials "Invalid handle or password"), 1, []) :=
  C4_with_retry_no_retry_on_non_network Nat _
    (.InvalidCredentials "Invalid handle or password") rfl (by decide)

/-! ### Crypto primitives (`storage/crypto.rs`)

`storage/crypto.rs` delegates to the external crates `aes_gcm`, `base64`
and `argon2`.  Each crate is modelled as a package of abstract functions
carrying exactly the guarantees documented for it that the code relies on:

* `Base64Codec`: `BASE64.encode` / `BASE64.decode` with the round-trip
  guarantee of the `base64` crate;
* `Aead`: the AES-256-GCM cipher with the AEAD guarantees — decryption
  under the encrypting key and nonce recovers the plaintext, and
  decryption under any other key fails authentication;
* `Argon2Hasher`: `SaltString::encode_b64` and
  `Argon2::default().hash_password`, whose default output is 32 bytes
  (`Params::DEFAULT_OUTPUT_LEN`). -/

/-- Model of the `base64` crate's `STANDARD` engine. -/
structure Base64Codec where
  encode : List Nat → String
  decode : String → Except String (List Nat)
  decode_encode : ∀ bs, decode (encode bs) = .ok bs

/-- Model of the `aes_gcm` crate's `Aes256Gcm` cipher: `enc key nonce data`
and `dec key nonce ciphertext`.  `dec` returns `none` when the
authentication tag does not verify. -/
structure Aead where
  enc : List Nat → List Nat → List Nat → List Nat
  dec : List Nat → List Nat → List Nat → Option (List Nat)
  dec_enc : ∀ key nonce data, dec key nonce (enc key nonce data) = some data
  dec_wrong_key : ∀ key key' nonce data, key ≠ key' →
    dec key' nonce (enc key nonce data) = none

/-- Model of the `argon2` crate as used by `derive_key_from_password`:
`saltEncode` is `SaltString::encode_b64`, `hashPassword` is
`Argon2::default().hash_password` returning the optional raw hash output
(`password_hash.hash`). -/
structure Argon2Hasher where
  saltEncode : List Nat → Except String String
  hashPassword : String → String → Except String (Option (List Nat))
  hash_len : ∀ pw s h, hashPassword pw s = .ok (some h) → h.length = 32

/-- `derive_key_from_password` from `storage/crypto.rs`. -/
def derive_key_from_password (H : Argon2Hasher) (password : String) (salt : List Nat) :
    Except String (List Nat) :=
  match H.saltEncode salt with
  | .error e => .error ("Salt encoding error: " ++ e)
  | .ok salt_string =>
    match H.hashPassword password salt_string with
    | .error e => .error ("Password hashing failed: " ++ e)
    | .ok none => .error "Password hash extraction failed"
    | .ok (some hash) =>
      -- take first 32 bytes for AES-256
      .ok (hash.take 32)

/-- `encrypt` from `storage/crypto.rs`.  The 12-byte random nonce drawn
from `OsRng` is passed explicitly. -/
def encrypt (B : Base64Codec) (A : Aead) (data : List Nat) (key : List Nat)
    (nonce : List Nat) : Except String String :=
  if key.length ≠ 32 then
    .error "Key must be 32 bytes for AES-256"
  else
    let ciphertext := A.enc key nonce data
    -- combine nonce + ciphertext and encode as base64
    .ok (B.encode (nonce ++ ciphertext))

/-- `decrypt` from `storage/crypto.rs`. -/
def decrypt (B : Base64Codec) (A : Aead) (encrypted_data : String) (key : List Nat) :
    Except String (List Nat) :=
  if key.length ≠ 32 then
    .error "Key must be 32 bytes for AES-256"
  else
    match B.decode encrypted_data with
    | .error e => .error ("Base64 decode failed: " ++ e)
    | .ok combined =>
      if combined.length < 12 then
        .error "Invalid encrypted data: too short"
      else
        -- split nonce and ciphertext
        let nonce := combined.take 12
        let ciphertext := combined.drop 12
        match A.dec key nonce ciphertext with
        | none => .error "Decryption failed: aead::Error"
        | some plaintext => .ok plaintext

theorem take_length_append (xs ys : List α) : (xs ++ ys).take xs.length = xs := by
  induction xs with
  | nil => rfl
  | cons x xs ih => simp [ih]

theorem drop_length_append (xs ys : List α) : (xs ++ ys).drop xs.length = ys := by
  induction xs with
  | nil => rfl
  | cons x xs ih => simp [ih]

/-- C5: for every payload and 32-byte key, decryption of an encryption
(under any 12-byte nonce the cipher may draw) succeeds and returns the
payload; with a key whose length is not 32 bytes, `encrypt` fails with the
key-length error instead of producing a ciphertext. -/
theorem C5_encrypt_decrypt_roundtrip (B : Base64Codec) (A : Aead)
    (data key nonce : List Nat) :
    (key.length = 32 → nonce.length = 12 →
      ∃ blob, encrypt B A data key nonce = .ok blob ∧
        decrypt B A blob key = .ok data) ∧
    (key.length ≠ 32 →
      encrypt B A data key nonce = .error "Key must be 32 bytes for AES-256") := by
  constructor
  · intro hk hn
    refine ⟨B.encode (nonce ++ A.enc key nonce data), ?_, ?_⟩
    · simp [encrypt, hk]
    · have hlen : (nonce ++ A.enc key nonce data).length = 12 + (A.enc key nonce data).length := by
        simp [hn]
      have htake : (nonce ++ A.enc key nonce data).take 12 = nonce := by
        rw [← hn]; exact take_length_append _ _
      have hdrop : (nonce ++ A.enc key nonce data).drop 12 = A.enc key nonce data := by
        rw [← hn]; exact drop_length_append _ _
      simp only [decrypt, hk, B.decode_encode]
      rw [if_neg (by omega), if_neg (by omega), htake, hdrop, A.dec_enc]
  · intro hk
    simp [encrypt, hk]

/-- C8: `derive_key_from_password` is deterministic — identical
`(password, salt)` inputs give identical results — and every successful
output is exactly 32 bytes long. -/
theorem C8_derive_key_deterministic_32 (H : Argon2Hasher) (pw pw' : String)
    (salt salt' : List Nat) (hpw : pw = pw') (hsalt : salt = salt') :
    derive_key_from_password H pw salt = derive_key_from_password H pw' salt' ∧
    (∀ k, derive_key_from_password H pw salt = .ok k → k.length = 32) := by
  subst hpw; subst hsalt
  refine ⟨rfl, ?_⟩
  intro k hk
  unfold derive_key_from_password at hk
  cases hse : H.saltEncode salt with
  | error e => simp only [hse] at hk; exact absurd hk (by simp)
  | ok salt_string =>
    simp only [hse] at hk
    cases hhp : H.hashPassword pw salt_string with
    | error e => simp only [hhp] at hk; exact absurd hk (by simp)
    | ok oh =>
      simp only [hhp] at hk
      cases oh with
      | none => exact absurd hk (by simp)
      | some hash =>
        simp only [Except.ok.injEq] at hk
        have h32 := H.hash_len pw salt_string hash hhp
        rw [← hk]
        simp [h32]

/-! ### Concrete primitive packages used by witnesses

Executable instances of `Base64Codec`, `Aead` and `Argon2Hasher` whose
laws are proved, so that the claims (quantified over the packages) can be
evaluated on concrete inputs. -/

/-- Unary rendering of one byte: `b` copies of `'a'` then a `'b'`. -/
def unaryEncChars : List Nat → List Char
  | [] => []
  | b :: bs => List.replicate b 'a' ++ 'b' :: unaryEncChars bs

/-- Parser for `unaryEncChars`; the `Nat` accumulator counts the `'a'`s
of the current token. -/
def unaryDecGo : Nat → List Char → Option (List Nat)
  | _, [] => none
  | n, c :: cs =>
    if c = 'a' then unaryDecGo (n + 1) cs
    else if c = 'b' then
      match cs with
      | [] => some [n]
      | _ :: _ => (unaryDecGo 0 cs).map (n :: ·)
    else none

def unaryDecode (s : List Char) : Option (List Nat) :=
  if s.isEmpty then some [] else unaryDecGo 0 s

theorem unaryDecGo_replicate (b : Nat) (rest : List Char) : ∀ n,
    unaryDecGo n (List.replicate b 'a' ++ 'b' :: rest) =
      match rest with
      | [] => some [n + b]
      | _ :: _ => (unaryDecGo 0 rest).map ((n + b) :: ·) := by
  induction b with
  | zero =>
    intro n
    cases rest <;> simp [unaryDecGo]
  | succ b ih =>
    intro n
    have : List.replicate (b + 1) 'a' = 'a' :: List.replicate b 'a' := rfl
    rw [this]
    show unaryDecGo (n + 1) (List.replicate b 'a' ++ 'b' :: rest) = _
    rw [ih (n + 1)]
    cases rest <;> simp [Nat.add_assoc, Nat.add_comm 1 b]

theorem unaryEncChars_ne_nil (b : Nat) (bs : List Nat) : unaryEncChars (b :: bs) ≠ [] := by
  cases b <;> simp [unaryEncChars, List.replicate]

theorem unaryDecode_enc (bs : List Nat) : unaryDecode (unaryEncChars bs) = some bs := by
  induction bs with
  | nil => rfl
  | cons b bs ih =>
    have hne : unaryEncChars (b :: bs) ≠ [] := unaryEncChars_ne_nil b bs
    unfold unaryDecode
    rw [if_neg (by simpa [List.isEmpty_iff] using hne)]
    show unaryDecGo 0 (List.replicate b 'a' ++ 'b' :: unaryEncChars bs) = some (b :: bs)
    rw [unaryDecGo_replicate b (unaryEncChars bs) 0]
    cases hbs : bs with
    | nil => simp [unaryEncChars]
    | cons b' bs' =>
      have hne' : unaryEncChars (b' :: bs') ≠ [] := unaryEncChars_ne_nil b' bs'
      rw [hbs] at ih
      unfold unaryDecode at ih
      rw [if_neg (by simpa [List.isEmpty_iff] using hne')] at ih
      cases henc : unaryEncChars (b' :: bs') with
      | nil => exact absurd henc hne'
      | cons c cs =>
        rw [henc] at ih
        simp [henc, ih]

/-- Concrete `Base64Codec` package (an injective printable rendering with
a verified inverse). -/
def unaryB64 : Base64Codec where
  encode bs := String.mk (unaryEncChars bs)
  decode s :=
    match unaryDecode s.data with
    | some bs => .ok bs
    | none => .error "Invalid symbol"
  decode_encode bs := by
    have hd : (String.mk (unaryEncChars bs)).data = unaryEncChars bs := rfl
    show (match unaryDecode (String.mk (unaryEncChars bs)).data with
      | some bs => (.ok bs : Except String (List Nat))
      | none => .error "Invalid symbol") = .ok bs
    rw [hd, unaryDecode_enc]

def listAeadEnc (key _nonce data : List Nat) : List Nat :=
  (key.length :: key) ++ data

def listAeadDec (key _nonce ct : List Nat) : Option (List Nat) :=
  if ct.take (key.length + 1) = key.length :: key then
    some (ct.drop (key.length + 1))
  else
    none

theorem listAeadDec_enc (key nonce data : List Nat) :
    listAeadDec key nonce (listAeadEnc key nonce data) = some data := by
  have ht := take_length_append (key.length :: key) data
  have hd := drop_length_append (key.length :: key) data
  simp only [List.length_cons] at ht hd
  simp [listAeadDec, listAeadEnc, ht, hd]

theorem listAeadDec_wrong_key (key key' nonce data : List Nat) (hne : key ≠ key') :
    listAeadDec key' nonce (listAeadEnc key nonce data) = none := by
  unfold listAeadDec listAeadEnc
  rw [if_neg]
  intro heq
  have hsh : (key.length :: key) ++ data = key.length :: (key ++ data) := rfl
  rw [hsh, List.take_succ_cons] at heq
  injection heq with h1 h2
  rw [← h1, take_length_append] at h2
  exact hne h2

/-- Concrete `Aead` package: the ciphertext records the key (length-prefixed)
followed by the plaintext, and decryption authenticates by comparing the
recorded key with the supplied one. -/
def listAead : Aead :=
  ⟨listAeadEnc, listAeadDec, listAeadDec_enc, listAeadDec_wrong_key⟩

/-- Concrete `Argon2Hasher` package: the hash depends on the (encoded)
salt, and is always 32 bytes, like Argon2's default output. -/
def toyArgon2 : Argon2Hasher where
  saltEncode salt := .ok (String.mk (List.replicate salt.length 'x'))
  hashPassword _pw salt_string := .ok (some (List.replicate 31 0 ++ [salt_string.length]))
  hash_len := by
    intro pw s h hh
    simp only [Except.ok.injEq, Option.some.injEq] at hh
    rw [← hh]
    simp

def key32 : List Nat := List.replicate 32 0

def nonce12 : List Nat := List.replicate 12 0

/-- Witness for C5: round-trip at a concrete payload/key/nonce, and the
key-length failure at a 1-byte key. -/
theorem C5_encrypt_decrypt_roundtrip_witness :
    (∃ blob, encrypt unaryB64 listAead [1, 2, 3] key32 nonce12 = .ok blob ∧
      decrypt unaryB64 listAead blob key32 = .ok [1, 2, 3]) ∧
    encrypt unaryB64 listAead [1, 2, 3] [0] nonce12 =
      .error "Key must be 32 bytes for AES-256" :=
  ⟨(C5_encrypt_decrypt_roundtrip unaryB64 listAead [1, 2, 3] key32 nonce12).1
      (by decide) (by decide),
   (C5_encrypt_decrypt_roundtrip unaryB64 listAead [1, 2, 3] [0] nonce12).2 (by decide)⟩

/-- Witness for C8 at a concrete password and salt. -/
theorem C8_derive_key_deterministic_32_witness :
    derive_key_from_password toyArgon2 "pw" [0] = derive_key_from_password toyArgon2 "pw" [0] ∧
    (List.replicate 31 0 ++ [1]).length = 32 :=
  ⟨(C8_derive_key_deterministic_32 toyArgon2 "pw" "pw" [0] [0] rfl rfl).1,
   (C8_derive_key_deterministic_32 toyArgon2 "pw" "pw" [0] [0] rfl rfl).2
     (List.replicate 31 0 ++ [1]) (by decide)⟩

/-! ### Storage snapshot and filesystem model
(`storage/persistence.rs`, `storage/mod.rs`)

`HashMap<String, T>` is modelled as an association list whose keys are
unique by construction (`insert` removes the old binding).  The two files
owned by `PersistentStorage` (`storage.enc`, `salt.bin` under the data
directory) are modelled by a `Disk` record holding their contents
(`none` = the file does not exist); the outcome of each fallible OS call
is an explicit argument, and each operation also returns the list of
filesystem calls it issued. -/

def mapInsert (m : List (String × α)) (k : String) (v : α) : List (String × α) :=
  (k, v) :: m.filter (fun p => p.1 != k)

def mapRemove (m : List (String × α)) (k : String) : List (String × α) :=
  m.filter (fun p => p.1 != k)

def mapGet (m : List (String × α)) (k : String) : Option α :=
  (m.find? (fun p => p.1 == k)).map (·.2)

/-- `StorageData` from `storage/persistence.rs`. -/
structure StorageData where
  accounts : List (String × Account)
  tokens : List (String × AuthToken)
deriving DecidableEq, Repr

/-- `StorageData::new`. -/
def StorageData.new : StorageData := ⟨[], []⟩

/-- One filesystem call issued by the storage layer. -/
inductive FsOp where
  | write (path : String) (contents : String)
  | rename (src dst : String)
  | remove (path : String)
deriving DecidableEq, Repr

def FsOp.isRename : FsOp → Bool
  | .rename _ _ => true
  | _ => false

/-- Contents of the two files owned by `PersistentStorage`. -/
structure Disk where
  dataFile : Option String
  saltFile : Option (List Nat)
deriving DecidableEq, Repr

/-- Model of the `serde_json` serializer for `StorageData`
(`serde_json::to_vec` / `serde_json::from_slice`). -/
structure SerdeJson where
  ser : StorageData → Except String (List Nat)
  deser : List Nat → Except String StorageData

/-- `PersistentStorage` from `storage/persistence.rs`.  The two path
fields are constants in the model (`storage.enc`, `salt.bin`); the derived
encryption key is the only state. -/
structure PersistentStorage where
  encryption_key : List Nat
deriving DecidableEq, Repr

/-- `PersistentStorage::new` from `storage/persistence.rs`.  The fresh
16-byte salt `generate_salt` would draw is the explicit `freshSalt`
argument.  The OS calls that only abort construction on failure
(`create_dir_all`, salt read, salt write) are taken as succeeding. -/
def PersistentStorage.new (H : Argon2Hasher) (disk : Disk) (password : String)
    (freshSalt : List Nat) : Except AuthError (PersistentStorage × Disk) :=
  -- load or generate salt
  let p :=
    match disk.saltFile with
    | some s => (s, disk)
    | none => (freshSalt, { disk with saltFile := some freshSalt })
  match derive_key_from_password H password p.1 with
  | .error e => .error (.StorageError ("Key derivation failed: " ++ e))
  | .ok key => .ok (⟨key⟩, p.2)

/-- `PersistentStorage::load` from `storage/persistence.rs` (the read of
an existing file is taken as succeeding). -/
def PersistentStorage.load (B : Base64Codec) (A : Aead) (C : SerdeJson)
    (st : PersistentStorage) (disk : Disk) : Except AuthError StorageData :=
  match disk.dataFile with
  | none => .ok StorageData.new
  | some encrypted_data =>
    match decrypt B A encrypted_data st.encryption_key with
    | .error e => .error (.StorageError ("Decryption failed: " ++ e))
    | .ok decrypted_bytes =>
      match C.deser decrypted_bytes with
      | .error e => .error (.StorageError ("Failed to parse storage data: " ++ e))
      | .ok d => .ok d

/-- `PersistentStorage::save` from `storage/persistence.rs`: serialize,
encrypt, then one direct `fs::write` to the data-file path, whose outcome
is `writeResult`. -/
def PersistentStorage.save (B : Base64Codec) (A : Aead) (C : SerdeJson)
    (st : PersistentStorage) (disk : Disk) (data : StorageData) (nonce : List Nat)
    (writeResult : Except String Unit) : Except AuthError Unit × Disk × List FsOp :=
  match C.ser data with
  | .error e => (.error (.StorageError ("Failed to serialize storage data: " ++ e)), disk, [])
  | .ok json_bytes =>
    match encrypt B A json_bytes st.encryption_key nonce with
    | .error e => (.error (.StorageError ("Encryption failed: " ++ e)), disk, [])
    | .ok encrypted_data =>
      match writeResult with
      | .error e =>
        (.error (.StorageError ("Failed to write storage file: " ++ e)), disk,
          [.write "storage.enc" encrypted_data])
      | .ok _ =>
        (.ok (), { disk with dataFile := some encrypted_data },
          [.write "storage.enc" encrypted_data])

/-- Salt-file half of `PersistentStorage::clear`. -/
def PersistentStorage.clearSalt (disk : Disk) (removeSaltResult : Except String Unit) :
    Except AuthError Unit × Disk × List FsOp :=
  match disk.saltFile with
  | none => (.ok (), disk, [])
  | some _ =>
    match removeSaltResult with
    | .error e =>
      (.error (.StorageError ("Failed to delete salt file: " ++ e)), disk, [.remove "salt.bin"])
    | .ok _ => (.ok (), { disk with saltFile := none }, [.remove "salt.bin"])

/-- `PersistentStorage::clear` from `storage/persistence.rs`: delete the
data file if present, then the salt file if present; a file's absence is
not an error. -/
def PersistentStorage.clear (disk : Disk) (removeDataResult removeSaltResult : Except String Unit) :
    Except AuthError Unit × Disk × List FsOp :=
  match disk.dataFile with
  | none => PersistentStorage.clearSalt disk removeSaltResult
  | some _ =>
    match removeDataResult with
    | .error e =>
      (.error (.StorageError ("Failed to delete storage file: " ++ e)), disk,
        [.remove "storage.enc"])
    | .ok _ =>
      let r := PersistentStorage.clearSalt { disk with dataFile := none } removeSaltResult
      (r.1, r.2.1, .remove "storage.enc" :: r.2.2)

/-! ### `StorageManager` (`storage/mod.rs`)

The mutexes of the source serialize access within one process; the model
is the single-threaded semantics: an explicit state (`persistence` holding
the derived key, plus the in-memory `cache`) threaded through every
operation together with the `Disk`. -/

/-- `StorageManager` from `storage/mod.rs`. -/
structure StorageManager where
  persistence : PersistentStorage
  cache : StorageData
deriving DecidableEq, Repr

namespace StorageManager

/-- `StorageManager::persist`: save the whole cache through the backend. -/
def persist (B : Base64Codec) (A : Aead) (C : SerdeJson) (sm : StorageManager)
    (disk : Disk) (nonce : List Nat) (writeResult : Except String Unit) :
    Except AuthError Unit × Disk :=
  let r := PersistentStorage.save B A C sm.persistence disk sm.cache nonce writeResult
  (r.1, r.2.1)

/-- `StorageManager::save_auth_token`: insert into the cache, then persist. -/
def save_auth_token (B : Base64Codec) (A : Aead) (C : SerdeJson) (sm : StorageManager)
    (disk : Disk) (token : AuthToken) (nonce : List Nat) (writeResult : Except String Unit) :
    Except AuthError Unit × StorageManager × Disk :=
  let sm' := { sm with cache :=
    { sm.cache with tokens := mapInsert sm.cache.tokens token.account_id token } }
  let r := persist B A C sm' disk nonce writeResult
  (r.1, sm', r.2)

/-- `StorageManager::get_auth_token`. -/
def get_auth_token (sm : StorageManager) (account_id : String) : Except AuthError AuthToken :=
  match mapGet sm.cache.tokens account_id with
  | some t => .ok t
  | none => .error (.AccountNotFound account_id)

/-- `StorageManager::delete_auth_token`: remove from the cache, then persist. -/
def delete_auth_token (B : Base64Codec) (A : Aead) (C : SerdeJson) (sm : StorageManager)
    (disk : Disk) (account_id : String) (nonce : List Nat) (writeResult : Except String Unit) :
    Except AuthError Unit × StorageManager × Disk :=
  let sm' := { sm with cache :=
    { sm.cache with tokens := mapRemove sm.cache.tokens account_id } }
  let r := persist B A C sm' disk nonce writeResult
  (r.1, sm', r.2)

/-- `StorageManager::save_account`: insert into the cache, then persist. -/
def save_account (B : Base64Codec) (A : Aead) (C : SerdeJson) (sm : StorageManager)
    (disk : Disk) (account : Account) (nonce : List Nat) (writeResult : Except String Unit) :
    Except AuthError Unit × StorageManager × Disk :=
  let sm' := { sm with cache :=
    { sm.cache with accounts := mapInsert sm.cache.accounts account.id account } }
  let r := persist B A C sm' disk nonce writeResult
  (r.1, sm', r.2)

/-- `StorageManager::get_account`. -/
def get_account (sm : StorageManager) (account_id : String) : Except AuthError Account :=
  match mapGet sm.cache.accounts account_id with
  | some a => .ok a
  | none => .error (.AccountNotFound account_id)

/-- `StorageManager::list_accounts`. -/
def list_accounts (sm : StorageManager) : Except AuthError (List Account) :=
  .ok (sm.cache.accounts.map (·.2))

/-- `StorageManager::delete_account`: remove from the cache, then persist. -/
def delete_account (B : Base64Codec) (A : Aead) (C : SerdeJson) (sm : StorageManager)
    (disk : Disk) (account_id : String) (nonce : List Nat) (writeResult : Except String Unit) :
    Except AuthError Unit × StorageManager × Disk :=
  let sm' := { sm with cache :=
    { sm.cache with accounts := mapRemove sm.cache.accounts account_id } }
  let r := persist B A C sm' disk nonce writeResult
  (r.1, sm', r.2)

/-- `StorageManager::clear_all`: empty both cache maps, then delete the
backend's files. -/
def clear_all (sm : StorageManager) (disk : Disk)
    (removeDataResult removeSaltResult : Except String Unit) :
    Except AuthError Unit × StorageManager × Disk :=
  let sm' := { sm with cache := StorageData.new }
  let r := PersistentStorage.clear disk removeDataResult removeSaltResult
  (r.1, sm', r.2.1)

end StorageManager

/-! ### Session client (`auth/mod.rs`) and the refresh command (`commands.rs`)

The HTTP exchange is embedded as an explicit outcome: either a transport
failure, or a response with a status code and (for 2xx handling) the
result of parsing its body as a `SessionResponse`. -/

/-- Outcome of one HTTP request as seen by the client code. -/
inductive HttpResp where
  | timeout
  | reqFail (msg : String)
  | response (status : Nat) (parsed : Except String SessionResponse)

/-- `reqwest::StatusCode::is_success`: 2xx. -/
def status_is_success (status : Nat) : Bool :=
  decide (200 ≤ status) && decide (status < 300)

/-- `ATProtocolClient` from `auth/mod.rs` (the `reqwest::Client` carries
no modelled state; building it is taken as succeeding). -/
structure ATProtocolClient where
  server_url : String
deriving DecidableEq, Repr

/-- `ATProtocolClient::new` from `auth/mod.rs`. -/
def ATProtocolClient.new (server_url : Option String) : Except AuthError ATProtocolClient :=
  match normalize_server_url server_url with
  | .error e => .error e
  | .ok url => .ok ⟨url⟩

/-- `ATProtocolClient::refresh_session` from `auth/mod.rs` (lines
129-164): classification of the response of the refresh endpoint. -/
def ATProtocolClient.refresh_session (resp : HttpResp) : Except AuthError SessionResponse :=
  match resp with
  | .timeout => .error (.NetworkError "Request timeout")
  | .reqFail msg => .error (.NetworkError ("Request failed: " ++ msg))
  | .response status parsed =>
    if !(status_is_success status) then
      if status = 401 then
        .error .TokenExpired
      else
        .error (.ServerError ("Refresh failed with status " ++ toString status))
    else
      match parsed with
      | .error e => .error (.ServerError ("Failed to parse refresh response: " ++ e))
      | .ok session => .ok session

namespace Commands

/-- The `refresh_session` Tauri command from `commands.rs` (lines
115-160).  The timestamps computed from `Utc::now()` are the explicit
arguments `now`, `access_exp`, `refresh_exp`; errors are rendered through
`AuthError`'s `Display` as in the `format!` calls of the source. -/
def refresh_session (B : Base64Codec) (A : Aead) (C : SerdeJson)
    (sm : StorageManager) (disk : Disk) (account_id : String) (resp : HttpResp)
    (now access_exp refresh_exp : String) (nonce : List Nat)
    (writeResult : Except String Unit) : Except String AuthToken × StorageManager × Disk :=
  match sm.get_auth_token account_id with
  | .error e => (.error ("Failed to get token: " ++ e.display), sm, disk)
  | .ok _old_token =>
    match sm.get_account account_id with
    | .error e => (.error ("Failed to get account: " ++ e.display), sm, disk)
    | .ok account =>
      match ATProtocolClient.new (some account.server_url) with
      | .error e => (.error ("Failed to create client: " ++ e.display), sm, disk)
      | .ok _client =>
        match ATProtocolClient.refresh_session resp with
        | .error e => (.error ("Refresh failed: " ++ e.display), sm, disk)
        | .ok session =>
          let new_token : AuthToken :=
            { account_id := account_id
              access_jwt := session.access_jwt
              refresh_jwt := session.refresh_jwt
              issued_at := now
              access_expires_at := access_exp
              refresh_expires_at := refresh_exp
              session_string := none }
          let r := StorageManager.save_auth_token B A C sm disk new_token nonce writeResult
          match r.1 with
          | .error e => (.error ("Failed to save token: " ++ e.display), r.2.1, r.2.2)
          | .ok _ => (.ok new_token, r.2.1, r.2.2)

end Commands

/-! ### Concrete fixtures for counterexamples and witnesses -/

/-- Concrete `SerdeJson` package: the encoding records the two map sizes;
like `serde_json`, it round-trips the empty snapshot
(`{"accounts":{},"tokens":{}}`). -/
def toySerde : SerdeJson where
  ser d := .ok [d.accounts.length, d.tokens.length]
  deser bs := if bs = [0, 0] then .ok StorageData.new else .error "invalid type"

def ps32 : PersistentStorage := ⟨key32⟩

def acct0 : Account :=
  { id := "acct-1", did := "did:plc:x", handle := "u.test", email := none,
    display_name := none, avatar := none, server_url := "https://bsky.social",
    created_at := "t0", last_used_at := "t0", is_active := true }

def tok0 : AuthToken :=
  { account_id := "acct-1", access_jwt := "a", refresh_jwt := "r", issued_at := "t0",
    access_expires_at := "t1", refresh_expires_at := "t2", session_string := none }

def data1 : StorageData := { accounts := [("acct-1", acct0)], tokens := [] }

def sm0 : StorageManager := { persistence := ps32, cache := StorageData.new }

/-! ### C1: `PersistentStorage::save` and the write-temp-then-rename claim -/

/-- C1 counterexample: on a concrete snapshot, a successful
`PersistentStorage::save` issues exactly one filesystem call — a direct
`fs::write` of the ciphertext to the real data-file path.  No temporary
path is written and no rename is performed, so the claimed
write-temp-then-rename sequence does not happen. -/
theorem C1_save_counterexample :
    (PersistentStorage.save unaryB64 listAead toySerde ps32 ⟨none, none⟩ data1 nonce12
        (.ok ())).1 = .ok () ∧
    (PersistentStorage.save unaryB64 listAead toySerde ps32 ⟨none, none⟩ data1 nonce12
        (.ok ())).2.2 =
      [FsOp.write "storage.enc"
        (unaryB64.encode (nonce12 ++ listAead.enc key32 nonce12 [1, 0]))] ∧
    ((PersistentStorage.save unaryB64 listAead toySerde ps32 ⟨none, none⟩ data1 nonce12
        (.ok ())).2.2.any FsOp.isRename) = false := by
  decide

/-- C1 amended: `save` serializes and encrypts the snapshot and writes the
ciphertext directly to the real data-file path in a single `fs::write`
call; no temporary sibling path is written and no rename is performed (so
the temp-write-then-rename atomicity mechanism the claim describes is
absent, and an interruption mid-write is not protected against). -/
theorem C1_save_direct_write (B : Base64Codec) (A : Aead) (C : SerdeJson)
    (st : PersistentStorage) (disk : Disk) (data : StorageData) (nonce : List Nat)
    (bytes : List Nat) (hser : C.ser data = .ok bytes)
    (hkey : st.encryption_key.length = 32) :
    ∃ blob, encrypt B A bytes st.encryption_key nonce = .ok blob ∧
      PersistentStorage.save B A C st disk data nonce (.ok ()) =
        (.ok (), { disk with dataFile := some blob }, [.write "storage.enc" blob]) ∧
      (∀ wr : Except String Unit,
        ((PersistentStorage.save B A C st disk data nonce wr).2.2.any FsOp.isRename) = false) := by
  refine ⟨B.encode (nonce ++ A.enc st.encryption_key nonce bytes), ?_, ?_, ?_⟩
  · simp [encrypt, hkey]
  · simp [PersistentStorage.save, hser, encrypt, hkey]
  · intro wr
    cases wr <;> simp [PersistentStorage.save, hser, encrypt, hkey, FsOp.isRename]

/-- Witness for the amended C1 at a concrete snapshot. -/
theorem C1_save_direct_write_witness :
    ∃ blob, encrypt unaryB64 listAead [1, 0] ps32.encryption_key nonce12 = .ok blob ∧
      PersistentStorage.save unaryB64 listAead toySerde ps32 ⟨none, none⟩ data1 nonce12 (.ok ()) =
        (.ok (), { Disk.mk none none with dataFile := some blob }, [.write "storage.enc" blob]) ∧
      (∀ wr : Except String Unit,
        ((PersistentStorage.save unaryB64 listAead toySerde ps32 ⟨none, none⟩ data1 nonce12
            wr).2.2.any FsOp.isRename) = false) :=
  C1_save_direct_write unaryB64 listAead toySerde ps32 ⟨none, none⟩ data1 nonce12 [1, 0]
    rfl (by decide)

/-! ### C2: mutating operations of `StorageManager` under a failed flush -/

/-- C2 counterexample: with a failing `fs::write` ("disk full"),
`save_auth_token` on an initially empty store returns an error, yet the
in-memory cache now contains the token while the disk does not: the store
is partially updated, and the mutation was applied to the cache without
the flush succeeding. -/
theorem C2_counterexample :
    (StorageManager.save_auth_token unaryB64 listAead toySerde sm0 ⟨none, none⟩ tok0 nonce12
        (.error "disk full")).1 =
      .error (.StorageError "Failed to write storage file: disk full") ∧
    (StorageManager.save_auth_token unaryB64 listAead toySerde sm0 ⟨none, none⟩ tok0 nonce12
        (.error "disk full")).2.1.cache ≠ sm0.cache ∧
    (StorageManager.save_auth_token unaryB64 listAead toySerde sm0 ⟨none, none⟩ tok0 nonce12
        (.error "disk full")).2.1.cache.tokens = [("acct-1", tok0)] ∧
    (StorageManager.save_auth_token unaryB64 listAead toySerde sm0 ⟨none, none⟩ tok0 nonce12
        (.error "disk full")).2.2 = ⟨none, none⟩ := by
  decide

theorem persist_error_disk_unchanged (B : Base64Codec) (A : Aead) (C : SerdeJson)
    (sm : StorageManager) (disk : Disk) (nonce : List Nat) (wr : Except String Unit)
    (e : AuthError) (h : (StorageManager.persist B A C sm disk nonce wr).1 = .error e) :
    (StorageManager.persist B A C sm disk nonce wr).2 = disk := by
  unfold StorageManager.persist PersistentStorage.save at h ⊢
  cases hs : C.ser sm.cache with
  | error e' => simp [hs]
  | ok bytes =>
    cases he : encrypt B A bytes sm.persistence.encryption_key nonce with
    | error e' => simp [hs, he]
    | ok blob =>
      cases wr with
      | error e' => simp [hs, he]
      | ok u => simp [hs, he] at h

/-- C2 amended: each of the five mutating operations applies its mutation
to the in-memory cache first and only then flushes; when the operation
returns an error the persisted data file is unchanged, but the cache
already holds the applied mutation — the call is not all-or-nothing over
cache plus disk.  `clear_all` likewise empties the cache before touching
the files, keeping the derived key. -/
theorem C2_mutate_then_flush (B : Base64Codec) (A : Aead) (C : SerdeJson)
    (sm : StorageManager) (disk : Disk) (tok : AuthToken) (acc : Account) (id : String)
    (nonce : List Nat) (wr rmD rmS : Except String Unit) :
    ((StorageManager.save_auth_token B A C sm disk tok nonce wr).2.1.cache =
        { sm.cache with tokens := mapInsert sm.cache.tokens tok.account_id tok } ∧
      ∀ e, (StorageManager.save_auth_token B A C sm disk tok nonce wr).1 = .error e →
        (StorageManager.save_auth_token B A C sm disk tok nonce wr).2.2 = disk) ∧
    ((StorageManager.delete_auth_token B A C sm disk id nonce wr).2.1.cache =
        { sm.cache with tokens := mapRemove sm.cache.tokens id } ∧
      ∀ e, (StorageManager.delete_auth_token B A C sm disk id nonce wr).1 = .error e →
        (StorageManager.delete_auth_token B A C sm disk id nonce wr).2.2 = disk) ∧
    ((StorageManager.save_account B A C sm disk acc nonce wr).2.1.cache =
        { sm.cache with accounts := mapInsert sm.cache.accounts acc.id acc } ∧
      ∀ e, (StorageManager.save_account B A C sm disk acc nonce wr).1 = .error e →
        (StorageManager.save_account B A C sm disk acc nonce wr).2.2 = disk) ∧
    ((StorageManager.delete_account B A C sm disk id nonce wr).2.1.cache =
        { sm.cache with accounts := mapRemove sm.cache.accounts id } ∧
      ∀ e, (StorageManager.delete_account B A C sm disk id nonce wr).1 = .error e →
        (StorageManager.delete_account B A C sm disk id nonce wr).2.2 = disk) ∧
    ((StorageManager.clear_all sm disk rmD rmS).2.1.cache = StorageData.new ∧
      (StorageManager.clear_all sm disk rmD rmS).2.1.persistence = sm.persistence) := by
  refine ⟨⟨rfl, ?_⟩, ⟨rfl, ?_⟩, ⟨rfl, ?_⟩, ⟨rfl, ?_⟩, rfl, rfl⟩ <;>
    intro e h <;>
    exact persist_error_disk_unchanged B A C _ disk nonce wr e h

/-- Witness for the amended C2 at a concrete failing flush. -/
theorem C2_mutate_then_flush_witness :
    (StorageManager.save_auth_token unaryB64 listAead toySerde sm0 ⟨none, none⟩ tok0 nonce12
        (.error "disk full")).2.1.cache =
      { sm0.cache with tokens := mapInsert sm0.cache.tokens tok0.account_id tok0 } ∧
    (StorageManager.save_auth_token unaryB64 listAead toySerde sm0 ⟨none, none⟩ tok0 nonce12
        (.error "disk full")).2.2 = ⟨none, none⟩ :=
  ⟨(C2_mutate_then_flush unaryB64 listAead toySerde sm0 ⟨none, none⟩ tok0 acct0 "acct-1"
      nonce12 (.error "disk full") (.ok ()) (.ok ())).1.1,
   (C2_mutate_then_flush unaryB64 listAead toySerde sm0 ⟨none, none⟩ tok0 acct0 "acct-1"
      nonce12 (.error "disk full") (.ok ()) (.ok ())).1.2
     (.StorageError "Failed to write storage file: disk full") (by decide)⟩

/-! ### C6: `PersistentStorage::load` -/

/-- Ciphertext of the empty snapshot under the concrete packages — the
exact file contents a `save` of an emptied store leaves behind. -/
def c6blob : String := unaryB64.encode (nonce12 ++ listAead.enc key32 nonce12 [0, 0])

/-- C6 counterexample: the "only if" direction of the claim fails — the
data file can exist (it holds a successfully saved encryption of the empty
snapshot, as left behind after the last account is deleted) and `load`
still returns the empty snapshot. -/
theorem C6_load_counterexample :
    PersistentStorage.save unaryB64 listAead toySerde ps32 ⟨none, none⟩ StorageData.new nonce12
        (.ok ()) = (.ok (), ⟨some c6blob, none⟩, [.write "storage.enc" c6blob]) ∧
    (some c6blob ≠ (none : Option String)) ∧
    PersistentStorage.load unaryB64 listAead toySerde ps32 ⟨some c6blob, none⟩ =
      .ok StorageData.new := by
  decide

/-- C6 amended: if the data file is absent, `load` returns the empty
snapshot; when the file exists, a decryption failure or a parse failure is
surfaced as a `StorageError` and never replaced with an empty snapshot
(though an existing file may itself legitimately decrypt and parse to the
empty snapshot, so absence is not the only source of an empty result). -/
theorem C6_load_absent_empty_failures_surface (B : Base64Codec) (A : Aead) (C : SerdeJson)
    (st : PersistentStorage) (disk : Disk) :
    (disk.dataFile = none → PersistentStorage.load B A C st disk = .ok StorageData.new) ∧
    (∀ blob e, disk.dataFile = some blob →
      decrypt B A blob st.encryption_key = .error e →
      PersistentStorage.load B A C st disk =
        .error (.StorageError ("Decryption failed: " ++ e))) ∧
    (∀ blob bytes e, disk.dataFile = some blob →
      decrypt B A blob st.encryption_key = .ok bytes →
      C.deser bytes = .error e →
      PersistentStorage.load B A C st disk =
        .error (.StorageError ("Failed to parse storage data: " ++ e))) := by
  refine ⟨?_, ?_, ?_⟩
  · intro h
    simp [PersistentStorage.load, h]
  · intro blob e hf hd
    simp [PersistentStorage.load, hf, hd]
  · intro blob bytes e hf hd hp
    simp [PersistentStorage.load, hf, hd, hp]

/-- Witness for the amended C6: the absent-file case, and a present file
whose decryption fails (garbage contents) surfacing as `StorageError`. -/
theorem C6_load_absent_empty_failures_surface_witness :
    PersistentStorage.load unaryB64 listAead toySerde ps32 ⟨none, none⟩ =
      .ok StorageData.new ∧
    PersistentStorage.load unaryB64 listAead toySerde ps32 ⟨some "!", none⟩ =
      .error (.StorageError
        ("Decryption failed: " ++ "Base64 decode failed: Invalid symbol")) :=
  ⟨(C6_load_absent_empty_failures_surface unaryB64 listAead toySerde ps32 ⟨none, none⟩).1 rfl,
   (C6_load_absent_empty_failures_surface unaryB64 listAead toySerde ps32 ⟨some "!", none⟩).2.1
     "!" "Base64 decode failed: Invalid symbol" rfl (by decide)⟩

/-! ### C7: refresh rejected with HTTP 401 -/

/-- C7: when the refresh endpoint answers HTTP 401, the client classifies
the failure as `TokenExpired` (not `InvalidCredentials` or `ServerError`),
and the `refresh_session` command returns the error before any write: the
store state is exactly the pre-call state, so the previously stored token
is still returned for that account. -/
theorem C7_refresh_401_token_expired (B : Base64Codec) (A : Aead) (C : SerdeJson)
    (sm : StorageManager) (disk : Disk) (account_id : String) (tok : AuthToken)
    (acc : Account) (parsed : Except String SessionResponse)
    (now access_exp refresh_exp : String) (nonce : List Nat) (wr : Except String Unit)
    (htok : sm.get_auth_token account_id = .ok tok)
    (hacc : sm.get_account account_id = .ok acc)
    (hurl : ∃ u, normalize_server_url (some acc.server_url) = .ok u) :
    ATProtocolClient.refresh_session (.response 401 parsed) = .error .TokenExpired ∧
    Commands.refresh_session B A C sm disk account_id (.response 401 parsed)
        now access_exp refresh_exp nonce wr =
      (.error "Refresh failed: Token expired", sm, disk) ∧
    (Commands.refresh_session B A C sm disk account_id (.response 401 parsed)
        now access_exp refresh_exp nonce wr).2.1.get_auth_token account_id = .ok tok := by
  obtain ⟨u, hu⟩ := hurl
  have hr : ATProtocolClient.refresh_session (.response 401 parsed) = .error .TokenExpired := by
    simp [ATProtocolClient.refresh_session, status_is_success]
  have hc : Commands.refresh_session B A C sm disk account_id (.response 401 parsed)
      now access_exp refresh_exp nonce wr =
      (.error "Refresh failed: Token expired", sm, disk) := by
    unfold Commands.refresh_session
    simp only [htok, hacc, ATProtocolClient.new, hu, hr]
    rfl
  exact ⟨hr, hc, by rw [hc]; exact htok⟩

def sm1 : StorageManager :=
  { persistence := ps32,
    cache := { accounts := [("acct-1", acct0)], tokens := [("acct-1", tok0)] } }

/-- Witness for C7 at a concrete populated store. -/
theorem C7_refresh_401_token_expired_witness :
    ATProtocolClient.refresh_session (.response 401 (.error "no body")) =
      .error .TokenExpired ∧
    Commands.refresh_session unaryB64 listAead toySerde sm1 ⟨none, none⟩ "acct-1"
        (.response 401 (.error "no body")) "t3" "t4" "t5" nonce12 (.ok ()) =
      (.error "Refresh failed: Token expired", sm1, ⟨none, none⟩) ∧
    (Commands.refresh_session unaryB64 listAead toySerde sm1 ⟨none, none⟩ "acct-1"
        (.response 401 (.error "no body")) "t3" "t4" "t5" nonce12
        (.ok ())).2.1.get_auth_token "acct-1" = .ok tok0 :=
  C7_refresh_401_token_expired unaryB64 listAead toySerde sm1 ⟨none, none⟩ "acct-1" tok0
    acct0 (.error "no body") "t3" "t4" "t5" nonce12 (.ok ()) (by decide) (by decide)
    ⟨"https://bsky.social", by decide⟩

/-! ### C10: `clear_all`, then save under the retained key, then reopen -/

theorem derive_key_from_password_length (H : Argon2Hasher) (pw : String) (salt k : List Nat)
    (hk : derive_key_from_password H pw salt = .ok k) : k.length = 32 := by
  unfold derive_key_from_password at hk
  cases hse : H.saltEncode salt with
  | error e => simp only [hse] at hk; exact absurd hk (by simp)
  | ok salt_string =>
    simp only [hse] at hk
    cases hhp : H.hashPassword pw salt_string with
    | error e => simp only [hhp] at hk; exact absurd hk (by simp)
    | ok oh =>
      simp only [hhp] at hk
      cases oh with
      | none => exact absurd hk (by simp)
      | some hash =>
        simp only [Except.ok.injEq] at hk
        have h32 := H.hash_len pw salt_string hash hhp
        rw [← hk]
        simp [h32]

theorem clear_ok_result (disk : Disk) :
    (PersistentStorage.clear disk (.ok ()) (.ok ())).1 = .ok () ∧
    (PersistentStorage.clear disk (.ok ()) (.ok ())).2.1 = ⟨none, none⟩ := by
  rcases disk with ⟨df, sf⟩
  cases df <;> cases sf <;>
    simp [PersistentStorage.clear, PersistentStorage.clearSalt]

/-- Decrypting a ciphertext under a key different from the encrypting one
fails authentication. -/
theorem decrypt_wrong_key (B : Base64Codec) (A : Aead) (key k' nonce data : List Nat)
    (hk32 : k'.length = 32) (hn : nonce.length = 12) (hne : key ≠ k') :
    decrypt B A (B.encode (nonce ++ A.enc key nonce data)) k' =
      .error "Decryption failed: aead::Error" := by
  have htake : (nonce ++ A.enc key nonce data).take 12 = nonce := by
    rw [← hn]; exact take_length_append _ _
  have hdrop : (nonce ++ A.enc key nonce data).drop 12 = A.enc key nonce data := by
    rw [← hn]; exact drop_length_append _ _
  have hlen : ¬((nonce ++ A.enc key nonce data).length < 12) := by
    rw [List.length_append, hn]; omega
  simp only [decrypt, B.decode_encode]
  rw [if_neg (by omega), if_neg hlen, htake, hdrop, A.dec_wrong_key key k' nonce data hne]

/-- C10: after a successful `clear_all` both files are gone and the cache
is empty, but the manager keeps its derived key; a subsequent
`save_auth_token` on the same instance recreates the encrypted data file
under that old key without recreating the salt file; reopening the
directory with `PersistentStorage::new` then generates a fresh salt, and
whenever the key it derives differs from the old one, loading the data
file fails (it cannot be decrypted). -/
theorem C10_clear_save_reopen (B : Base64Codec) (A : Aead) (C : SerdeJson) (H : Argon2Hasher)
    (sm : StorageManager) (disk : Disk) (tok : AuthToken) (freshSalt nonce : List Nat)
    (password : String) (bytes k' : List Nat)
    (sm1 : StorageManager) (disk1 : Disk) (r2 : Except AuthError Unit)
    (sm2 : StorageManager) (disk2 : Disk)
    (hkey : sm.persistence.encryption_key.length = 32)
    (hn : nonce.length = 12)
    (h1 : StorageManager.clear_all sm disk (.ok ()) (.ok ()) = (.ok (), sm1, disk1))
    (hser : C.ser { accounts := [], tokens := [(tok.account_id, tok)] } = .ok bytes)
    (h2 : StorageManager.save_auth_token B A C sm1 disk1 tok nonce (.ok ()) = (r2, sm2, disk2))
    (hder : derive_key_from_password H password freshSalt = .ok k')
    (hk' : k' ≠ sm.persistence.encryption_key) :
    sm1.persistence = sm.persistence ∧ sm1.cache = StorageData.new ∧
    disk1 = ⟨none, none⟩ ∧
    r2 = .ok () ∧
    ∃ blob, encrypt B A bytes sm.persistence.encryption_key nonce = .ok blob ∧
      disk2 = ⟨some blob, none⟩ ∧
      PersistentStorage.new H disk2 password freshSalt =
        .ok (⟨k'⟩, ⟨some blob, some freshSalt⟩) ∧
      ∃ m, PersistentStorage.load B A C ⟨k'⟩ ⟨some blob, some freshSalt⟩ =
        .error (.StorageError m) := by
  have hc := clear_ok_result disk
  unfold StorageManager.clear_all at h1
  simp only [Prod.mk.injEq] at h1
  obtain ⟨_, h1b, h1c⟩ := h1
  have hsm1 : sm1 = { sm with cache := StorageData.new } := h1b.symm
  have hdisk1 : disk1 = ⟨none, none⟩ := by rw [← h1c]; exact hc.2
  subst hsm1
  subst hdisk1
  refine ⟨rfl, rfl, rfl, ?_⟩
  have hcache :
      { ({ sm with cache := StorageData.new } : StorageManager).cache with
          tokens := mapInsert ({ sm with cache := StorageData.new } :
            StorageManager).cache.tokens tok.account_id tok } =
        ({ accounts := [], tokens := [(tok.account_id, tok)] } : StorageData) := rfl
  have henc : encrypt B A bytes sm.persistence.encryption_key nonce =
      .ok (B.encode (nonce ++ A.enc sm.persistence.encryption_key nonce bytes)) := by
    simp [encrypt, hkey]
  unfold StorageManager.save_auth_token StorageManager.persist PersistentStorage.save at h2
  simp only [hcache, hser, henc, Prod.mk.injEq] at h2
  obtain ⟨h2a, _, h2c⟩ := h2
  refine ⟨h2a.symm, B.encode (nonce ++ A.enc sm.persistence.encryption_key nonce bytes),
    henc, h2c.symm, ?_, ?_⟩
  · rw [h2c.symm]
    simp [PersistentStorage.new, hder]
  · refine ⟨"Decryption failed: " ++ "Decryption failed: aead::Error", ?_⟩
    have hk32 := derive_key_from_password_length H password freshSalt k' hder
    have hdw := decrypt_wrong_key B A sm.persistence.encryption_key k' nonce bytes hk32 hn
      (fun h => hk' h.symm)
    simp [PersistentStorage.load, hdw]

def c10blob : String := unaryB64.encode (nonce12 ++ listAead.enc key32 nonce12 [0, 1])

def k10 : List Nat := List.replicate 31 0 ++ [1]

def sm2c : StorageManager := { persistence := ps32, cache := ⟨[], [("acct-1", tok0)]⟩ }

/-- Witness for C10 at a concrete populated directory: the reopened store
derives a different key from the fresh salt and cannot load the data file
written under the old key. -/
theorem C10_clear_save_reopen_witness :
    ∃ blob, encrypt unaryB64 listAead [0, 1] sm0.persistence.encryption_key nonce12 = .ok blob ∧
      (⟨some c10blob, none⟩ : Disk) = ⟨some blob, none⟩ ∧
      PersistentStorage.new toyArgon2 ⟨some c10blob, none⟩ "pw" [0] =
        .ok (⟨k10⟩, ⟨some blob, some [0]⟩) ∧
      ∃ m, PersistentStorage.load unaryB64 listAead toySerde ⟨k10⟩ ⟨some blob, some [0]⟩ =
        .error (.StorageError m) :=
  (C10_clear_save_reopen unaryB64 listAead toySerde toyArgon2 sm0
    ⟨some "olddata", some [5, 6]⟩ tok0 [0] nonce12 "pw" [0, 1] k10 sm0 ⟨none, none⟩
    (.ok ()) sm2c ⟨some c10blob, none⟩ (by decide) (by decide) (by decide) (by decide)
    (by decide) (by decide) (by decide)).2.2.2.2
